import Mathlib

/-!
Verification development for the `python-decouple` configuration resolver
(`src/decouple.py`).  The Python source is shallowly embedded: Python strings
become `String`, dynamically typed values become the inductive `Value`,
raising an exception becomes returning `Except DecoupleError`, and the
process environment / parsed configuration files become explicit association
lists passed to each operation.  External collaborators (the INI and JSON
parsing libraries, the filesystem, `os.path`) are modelled by the interface
the core needs, as the specification directs.
-/

set_option autoImplicit false

namespace Decouple

/-- Characters of Python's `string.whitespace` (` \t\n\r\x0b\x0c`), the set
stripped by `str.strip()` with no argument. -/
def pyWhitespaceChars : List Char := [' ', '\t', '\n', '\r', '\x0b', '\x0c']

/-- The single-quote character (ASCII 39). -/
def squoteChar : Char := Char.ofNat 39

/-- Quote characters stripped from `.env` values: `str.strip` with the
two-character argument holding a single and a double quote. -/
def quoteChars : List Char := [squoteChar, '"']

/-- Python `s.strip(chars)`: remove every leading and trailing character
belonging to `chars`. -/
def pyStrip (chars : List Char) (s : String) : String :=
  ⟨((s.data.dropWhile (fun c => chars.contains c)).reverse.dropWhile
      (fun c => chars.contains c)).reverse⟩

/-- Python `str.lower` restricted to the ASCII letters used by the program. -/
def pyLower (s : String) : String :=
  ⟨s.data.map Char.toLower⟩

/-- Python `s.startswith(c)` for a one-character prefix, on the character
list representation (the byte-position implementation of
`String.startsWith` does not reduce in the kernel). -/
def pyStartsWith (c : Char) (s : String) : Bool :=
  match s.data with
  | [] => false
  | a :: _ => a == c

/-- Python `c in s` for a character, on the character list representation. -/
def pyContainsChar (c : Char) (s : String) : Bool :=
  s.data.contains c

/-- A dynamically typed Python value, restricted to the shapes the program
manipulates: strings (env/file values), booleans (boolean cast results),
`None` (`RepositoryEmpty.__getitem__` and default arguments), and integers
(possible JSON values and defaults). -/
inductive Value where
  | str (s : String)
  | bool (b : Bool)
  | none
  | int (n : Int)
deriving DecidableEq, Repr

/-- Python `str(value)` on the `Value` shapes above. -/
def Value.toPyStr : Value → String
  | .str s => s
  | .bool true => "True"
  | .bool false => "False"
  | .none => "None"
  | .int n => toString n

/-- Exceptions the embedded code can raise.  `undefinedValue` is
`UndefinedValueError`, `valueError` is Python's `ValueError` (the boolean
caster and shlex), `missingKey` is the missing-key error of a repository's
`__getitem__` (`KeyError` for `RepositoryEnv`/`RepositoryJSON`, the
`NoSectionError`/`NoOptionError` of the INI parser), `doesNotExist` and
`unsupportedFormat` mirror the classes of the same names, and `parseError`
stands for a parser-library failure on malformed file contents. -/
inductive DecoupleError where
  | undefinedValue (msg : String)
  | valueError (msg : String)
  | missingKey (key : String)
  | doesNotExist (msg : String)
  | unsupportedFormat (msg : String)
  | parseError (msg : String)
deriving DecidableEq, Repr

/-- The process environment `os.environ`: a key/value mapping with string
values.  Lookup returns the first binding of a key. -/
abbrev EnvMap := List (String × String)

/-- Outcomes of embedded Python code are compared in witnesses, so equality
of `Except` results must be decidable. -/
instance {e a : Type} [DecidableEq e] [DecidableEq a] : DecidableEq (Except e a) :=
  fun x y =>
    match x, y with
    | .ok u, .ok v =>
      match decEq u v with
      | isTrue h => isTrue (by rw [h])
      | isFalse h => isFalse (fun hc => h (Except.ok.inj hc))
    | .ok _, .error _ => isFalse (fun hc => Except.noConfusion hc)
    | .error _, .ok _ => isFalse (fun hc => Except.noConfusion hc)
    | .error u, .error v =>
      match decEq u v with
      | isTrue h => isTrue (by rw [h])
      | isFalse h => isFalse (fun hc => h (Except.error.inj hc))

/-- Membership test `option in os.environ`; present-with-empty-string keys
count as present. -/
def envContains (env : EnvMap) (k : String) : Bool :=
  (List.lookup k env).isSome

/-- The `_BOOLEANS` table of `Config` (src/decouple.py lines 46-47). -/
def BOOLEANS : List (String × Bool) :=
  [("1", true), ("yes", true), ("true", true), ("on", true),
   ("0", false), ("no", false), ("false", false), ("off", false), ("", false)]

/-- `Config._cast_boolean` (lines 52-60): `str(value).lower()` is looked up
in `_BOOLEANS`; a miss raises `ValueError('Not a boolean: %s' % value)`. -/
def castBoolean (v : Value) : Except DecoupleError Value :=
  match List.lookup (pyLower v.toPyStr) BOOLEANS with
  | Option.none => .error (.valueError ("Not a boolean: " ++ v.toPyStr))
  | Option.some b => .ok (.bool b)

/-- The `default` argument of `Config.get`: either the `undefined` sentinel
(the module-level `Undefined` instance) or a supplied value, which may itself
be falsy (`None`, `""`, ...) without being confused with the sentinel. -/
inductive PyDefault where
  | undefined
  | value (v : Value)

/-- The `cast` argument of `Config.get`: the `undefined` sentinel, the
builtin `bool` type object (checked by `cast is bool`), or an arbitrary
callable. -/
inductive PyCast where
  | undefined
  | boolMarker
  | fn (f : Value → Except DecoupleError Value)

/-- Parsed contents of one configuration file.  `.env` files are consumed as
raw text lines by `RepositoryEnv`; the INI and JSON parsers are external
collaborators (spec section 1, OUT OF SCOPE), so their files carry the
parser's output: a section → (key → string) mapping, or a JSON root. -/
inductive JsonRoot where
  | dict (entries : List (String × Value))
  | nonDict
deriving DecidableEq, Repr

inductive FileContent where
  | text (lines : List String)
  | iniData (sections : List (String × List (String × String)))
  | jsonData (root : JsonRoot)
deriving DecidableEq, Repr

/-- Line parsing of `RepositoryEnv.__init__` (lines 133-141): strip
whitespace; skip blank lines, lines starting with `#`, and lines with no
`=`; split on the first `=`; strip whitespace from the key; strip whitespace
and then quote characters from the value. -/
def parseEnvLine (rawLine : String) : Option (String × String) :=
  let line := pyStrip pyWhitespaceChars rawLine
  if line = "" then Option.none
  else if pyStartsWith '#' line then Option.none
  else if ¬ pyContainsChar '=' line then Option.none
  else
    let k : String := ⟨line.data.takeWhile (fun c => c != '=')⟩
    let v : String := ⟨(line.data.dropWhile (fun c => c != '=')).drop 1⟩
    Option.some (pyStrip pyWhitespaceChars k,
                 pyStrip quoteChars (pyStrip pyWhitespaceChars v))

/-- `RepositoryEnv.__init__`: fold the parsed lines into `self.data`.  A new
binding is prepended and `List.lookup` returns the first match, which gives
the dict's later-assignment-overwrites (last-write-wins) semantics. -/
def RepositoryEnv.parse (lines : List String) : List (String × String) :=
  lines.foldl
    (fun data line =>
      match parseEnvLine line with
      | Option.some kv => kv :: data
      | Option.none => data)
    []

/-- The INI parser, modelled from the spec (section 4.1): an external
section → (key → string-value) mapping.  `iniHasOption` is
`ConfigParser.has_option(section, key)`: true when the section exists and
holds the key. -/
def iniHasOption (sections : List (String × List (String × String)))
    (sec option : String) : Bool :=
  match List.lookup sec sections with
  | Option.some opts => (List.lookup option opts).isSome
  | Option.none => false

/-- `ConfigParser.get(section, key)`, modelled from the spec (section 4.1):
returns the string under the section, failing with a distinguished error
when the key or section is absent. -/
def iniGet (sections : List (String × List (String × String)))
    (sec option : String) : Except DecoupleError Value :=
  match List.lookup sec sections with
  | Option.some opts =>
    match List.lookup option opts with
    | Option.some v => .ok (.str v)
    | Option.none => .error (.missingKey option)
  | Option.none => .error (.missingKey option)

/-- The repository variants of src/decouple.py: `RepositoryEmpty` (lines
96-104), `RepositoryIni` (107-123) holding the external parser's output,
`RepositoryEnv` (126-147) holding the parsed `.env` mapping, and
`RepositoryJSON` (150-180) holding the parsed JSON object. -/
inductive Repo where
  | empty
  | ini (sections : List (String × List (String × String)))
  | envFile (data : List (String × String))
  | json (entries : List (String × Value))
deriving DecidableEq, Repr

/-- The fixed section name `RepositoryIni.SECTION` (line 111). -/
def SECTION : String := "settings"

/-- `__contains__` of each repository variant.  `RepositoryIni` and
`RepositoryEnv` fall back to the environment; `RepositoryEmpty` is always
false; `RepositoryJSON` checks only its own mapping. -/
def Repo.contains (env : EnvMap) : Repo → String → Bool
  | .empty, _ => false
  | .ini sections, k => envContains env k || iniHasOption sections SECTION k
  | .envFile data, k => envContains env k || (List.lookup k data).isSome
  | .json entries, k => (List.lookup k entries).isSome

/-- `__getitem__` of each repository variant.  `RepositoryEmpty` returns
`None`; the others look the key up in their mapping and raise a missing-key
error when it is absent. -/
def Repo.getItem : Repo → String → Except DecoupleError Value
  | .empty, _ => .ok .none
  | .ini sections, k => iniGet sections SECTION k
  | .envFile data, k =>
    match List.lookup k data with
    | Option.some v => .ok (.str v)
    | Option.none => .error (.missingKey k)
  | .json entries, k =>
    match List.lookup k entries with
    | Option.some v => .ok v
    | Option.none => .error (.missingKey k)

/-- The `Config` class (lines 42-93): wraps one repository. -/
structure Config where
  repository : Repo
deriving DecidableEq, Repr

/-- Value selection of `Config.get` (lines 71-80): environment first, then
the repository when it contains the option, then the default, else
`UndefinedValueError`. -/
def Config.resolveValue (env : EnvMap) (cfg : Config) (option : String)
    (default : PyDefault) : Except DecoupleError Value :=
  match List.lookup option env with
  | Option.some v => .ok (.str v)
  | Option.none =>
    if cfg.repository.contains env option then
      cfg.repository.getItem option
    else
      match default with
      | .undefined =>
        .error (.undefinedValue
          (option ++ " not found. Declare it as envvar or define a default value."))
      | .value d => .ok d

/-- Cast selection and application of `Config.get` (lines 82-87): the
`undefined` sentinel means `_cast_do_nothing`, the `bool` type object means
`_cast_boolean`, anything else is called as-is. -/
def Config.applyCast (cast : PyCast) (v : Value) : Except DecoupleError Value :=
  match cast with
  | .undefined => .ok v
  | .boolMarker => castBoolean v
  | .fn f => f v

/-- `Config.get` (lines 66-87): resolve the value, then apply the cast. -/
def Config.get (env : EnvMap) (cfg : Config) (option : String)
    (default : PyDefault) (cast : PyCast) : Except DecoupleError Value :=
  (Config.resolveValue env cfg option default).bind (Config.applyCast cast)

/-! The `Csv` helper (lines 251-277) tokenizes with `shlex(value, posix=True)`
after setting `whitespace` to the delimiter and `whitespace_split = True`.
The tokenizer below is the CPython `shlex.read_token` state machine iterated
over the whole input, specialized to that configuration: `posix` is true,
`quotes` are the single and double quote, `escape` is the backslash,
`escapedquotes` is the double quote, `commenters` is `#` (left at its
default by `Csv`), `punctuation_chars` is empty, and `whitespace` (the split
class) is the caller's delimiter characters.  `wordchars` plays no role
because `whitespace_split` is true: in the whitespace state the wordchars
branch and the whitespace-split fallthrough start a token identically, so
they are merged here (no quote or escape character is a wordchar).
`instream.readline()` on a comment character becomes an explicit
comment state that consumes characters through the next newline. -/

/-- Quote characters recognized by `shlex`. -/
def shlexQuotes : List Char := [squoteChar, '"']

/-- Escape characters recognized by posix-mode `shlex`. -/
def shlexEscapes : List Char := ['\\']

/-- Quote characters inside which the escape character is honoured. -/
def shlexEscapedQuotes : List Char := ['"']

/-- Comment-introducing characters (`shlex.commenters`, default `#`). -/
def shlexCommenters : List Char := ['#']

/-- State of the `shlex.read_token` machine: `ws` is the whitespace state
(`self.state == ' '`), `word` the accumulating state (`'a'`), `inQuote q`
the inside-quotes state (`self.state` set to the quote character),
`inEscape es` the just-read-an-escape state with `es` the state to return
to (the character `'a'` or the enclosing quote character), and `inComment`
models `instream.readline()` discarding the remainder of the line. -/
inductive ShState where
  | ws
  | word
  | inQuote (q : Char)
  | inEscape (es : Char)
  | inComment
deriving DecidableEq, Repr

/-- One pass of `shlex` token iteration over the whole input.  `tok` is the
accumulated `self.token`, `quoted` the per-token `quoted` flag, and `acc`
the reversed list of tokens already produced by earlier `read_token` calls.
In posix mode a finished token that is empty and unquoted is `None`, which
ends iteration; that can only happen at end of input, where it simply emits
nothing. -/
def shlexLoop (wsChars : List Char) :
    List Char → ShState → List Char → Bool → List String →
    Except DecoupleError (List String)
  | [], st, tok, quoted, acc =>
    match st with
    | .ws => .ok acc.reverse
    | .word =>
      if tok.isEmpty && !quoted then .ok acc.reverse
      else .ok ((⟨tok⟩ : String) :: acc).reverse
    | .inQuote _ => .error (.valueError "No closing quotation")
    | .inEscape _ => .error (.valueError "No escaped character")
    | .inComment => .ok acc.reverse
  | c :: cs, st, tok, quoted, acc =>
    match st with
    | .ws =>
      if wsChars.contains c then
        if !tok.isEmpty || quoted then
          shlexLoop wsChars cs .ws [] false ((⟨tok⟩ : String) :: acc)
        else
          shlexLoop wsChars cs .ws tok quoted acc
      else if shlexCommenters.contains c then
        shlexLoop wsChars cs .inComment tok quoted acc
      else if shlexEscapes.contains c then
        shlexLoop wsChars cs (.inEscape 'a') tok quoted acc
      else if shlexQuotes.contains c then
        shlexLoop wsChars cs (.inQuote c) tok quoted acc
      else
        shlexLoop wsChars cs .word [c] quoted acc
    | .word =>
      if wsChars.contains c then
        if !tok.isEmpty || quoted then
          shlexLoop wsChars cs .ws [] false ((⟨tok⟩ : String) :: acc)
        else
          shlexLoop wsChars cs .ws tok quoted acc
      else if shlexCommenters.contains c then
        if !tok.isEmpty || quoted then
          shlexLoop wsChars cs .inComment [] false ((⟨tok⟩ : String) :: acc)
        else
          shlexLoop wsChars cs .inComment tok quoted acc
      else if shlexQuotes.contains c then
        shlexLoop wsChars cs (.inQuote c) tok quoted acc
      else if shlexEscapes.contains c then
        shlexLoop wsChars cs (.inEscape 'a') tok quoted acc
      else
        shlexLoop wsChars cs .word (tok ++ [c]) quoted acc
    | .inQuote q =>
      if c = q then
        shlexLoop wsChars cs .word tok true acc
      else if shlexEscapes.contains c && shlexEscapedQuotes.contains q then
        shlexLoop wsChars cs (.inEscape q) tok true acc
      else
        shlexLoop wsChars cs (.inQuote q) (tok ++ [c]) true acc
    | .inEscape es =>
      let tok2 :=
        if shlexQuotes.contains es && c ≠ '\\' && c ≠ es then tok ++ ['\\', c]
        else tok ++ [c]
      if shlexQuotes.contains es then
        shlexLoop wsChars cs (.inQuote es) tok2 quoted acc
      else
        shlexLoop wsChars cs .word tok2 quoted acc
    | .inComment =>
      if c = '\n' then shlexLoop wsChars cs .ws tok quoted acc
      else shlexLoop wsChars cs .inComment tok quoted acc

/-- Tokenize a whole string the way `Csv.__call__` configures `shlex`:
posix mode, `whitespace` set to the delimiter characters,
`whitespace_split` on. -/
def shlexSplit (wsChars : List Char) (value : String) :
    Except DecoupleError (List String) :=
  shlexLoop wsChars value.data .ws [] false []

/-- The `Csv` helper class (lines 251-277).  `cast` transforms each token,
`delimiter` is the character class handed to `shlex` as whitespace, `strip`
the characters trimmed from each token after the split, `postProcess` the
container constructor applied to the transformed sequence. -/
structure Csv (α β : Type) where
  cast : String → α
  delimiter : String := ","
  strip : String := " \t\n\r\x0b\x0c"
  postProcess : List α → β

/-- `Csv.__call__` (lines 269-277): split with shlex, strip each token,
cast it, and package the results. -/
def Csv.call {α β : Type} (c : Csv α β) (value : String) :
    Except DecoupleError β :=
  (shlexSplit c.delimiter.data value).map
    (fun toks => c.postProcess (toks.map (fun s => c.cast (pyStrip c.strip.data s))))

/-- `Csv()` with all defaults: `cast` is `str` (the identity on strings),
comma delimiter, whitespace strip, `post_process` is `list`. -/
def csvDefault : Csv String (List String) :=
  { cast := fun s => s, postProcess := fun l => l }

/-! The filesystem and `os.path`, external collaborators of the
auto-discovery engine.  An absolute directory is represented bottom-up as
the list of its components innermost-first: `/a/b/c` is `["c", "b", "a"]`
and the root `/` is `[]`.  Under this representation `os.path.dirname` is
`List.tail`, and the guard `parent and parent != os.path.sep` of
`AutoConfig._find_file` (line 215) holds exactly when the parent list is
nonempty.  A file is a (directory, basename, parsed content) triple; the
found path returned by `_find_file` is represented as the (directory,
basename) pair whose `os.path.join` it is. -/

structure FSFile where
  dir : List String
  name : String
  content : FileContent
deriving DecidableEq, Repr

abbrev FileSystem := List FSFile

/-- `os.path.isfile` on the modelled filesystem. -/
def isFile (fs : FileSystem) (d : List String) (n : String) : Bool :=
  fs.any (fun f => f.dir == d && f.name == n)

/-- `open(...)`: the parsed content of the named file, first entry wins. -/
def readFile (fs : FileSystem) (d : List String) (n : String) :
    Option FileContent :=
  (fs.find? (fun f => f.dir == d && f.name == n)).map FSFile.content

/-- The repository classes appearing as values of `AutoConfig.SUPPORTED`,
plus `RepositoryEmpty`, the fallback. -/
inductive RepoClass where
  | json
  | ini
  | envFile
  | empty
deriving DecidableEq, Repr

/-- `AutoConfig.SUPPORTED` (lines 194-198): the ordered filename → class
table (Python 3.7+ dicts iterate in insertion order). -/
def SUPPORTED : List (String × RepoClass) :=
  [("secrets.json", RepoClass.json), ("settings.ini", RepoClass.ini),
   (".env", RepoClass.envFile)]

/-- `AutoConfig._find_file` (lines 205-219): try each supported filename in
table order in the current directory; on a miss, recurse into the parent
when parent search is enabled and the parent is neither empty nor the
filesystem root. -/
def AutoConfig.findFile (fs : FileSystem) (searchParents : Bool) :
    List String → Option (List String × String)
  | [] =>
    match SUPPORTED.find? (fun e => isFile fs [] e.1) with
    | Option.some e => Option.some ([], e.1)
    | Option.none => Option.none
  | d :: parent =>
    match SUPPORTED.find? (fun e => isFile fs (d :: parent) e.1) with
    | Option.some e => Option.some (d :: parent, e.1)
    | Option.none =>
      if searchParents && !parent.isEmpty then
        AutoConfig.findFile fs searchParents parent
      else
        Option.none

/-- Construction of a repository instance from its class and file, i.e.
`Repository(filename)` inside `AutoConfig._load`.  `RepositoryEnv` parses
the text lines; `RepositoryIni` and `RepositoryJSON` take the external
parser's output, `RepositoryJSON` failing with `UnsupportedFormatError`
when the JSON root is not a dict and `DoesNotExist` when the file is
missing; content of the wrong kind stands for a parser failure on a
malformed file, which propagates. -/
def buildRepository (fs : FileSystem) (cls : RepoClass) (dir : List String)
    (name : String) : Except DecoupleError Repo :=
  match cls with
  | .empty => .ok .empty
  | .envFile =>
    match readFile fs dir name with
    | Option.some (.text lines) => .ok (.envFile (RepositoryEnv.parse lines))
    | Option.some _ => .error (.parseError name)
    | Option.none => .error (.doesNotExist name)
  | .ini =>
    match readFile fs dir name with
    | Option.some (.iniData sections) => .ok (.ini sections)
    | Option.some _ => .error (.parseError name)
    | Option.none => .error (.doesNotExist name)
  | .json =>
    match readFile fs dir name with
    | Option.some (.jsonData (.dict entries)) => .ok (.json entries)
    | Option.some (.jsonData .nonDict) => .error (.unsupportedFormat name)
    | Option.some _ => .error (.parseError name)
    | Option.none => .error (.doesNotExist name)

/-- `AutoConfig._load` (lines 221-229): find a file, select the repository
class by the basename (`RepositoryEmpty` when nothing was found), construct
it and wrap it in a `Config`. -/
def AutoConfig.load (fs : FileSystem) (searchParents : Bool)
    (path : List String) : Except DecoupleError Config :=
  match AutoConfig.findFile fs searchParents path with
  | Option.none => (buildRepository fs .empty [] "").map Config.mk
  | Option.some dn =>
    match List.lookup dn.2 SUPPORTED with
    | Option.some cls => (buildRepository fs cls dn.1 dn.2).map Config.mk
    | Option.none => (buildRepository fs .empty dn.1 dn.2).map Config.mk

/-- The `AutoConfig` engine state (lines 183-241): the optional explicit
search path, the parent-search flag, and the memoized `self.config`
(`none` until `_load` succeeds). -/
structure AutoConfig where
  searchPath : Option (List String)
  searchParents : Bool := true
  config : Option Config := none
deriving DecidableEq, Repr

/-- `AutoConfig.__call__` (lines 237-241): load on first use, then forward
to `Config.get`.  `callerPath` stands for `self._caller_path()`, used when
no explicit search path was given.  The third component counts filesystem
walks (`_load` invocations) performed by this call; when `_load` fails the
exception propagates and `self.config` stays unset, exactly as in the
source. -/
def AutoConfig.call (fs : FileSystem) (env : EnvMap) (ac : AutoConfig)
    (callerPath : List String) (option : String) (default : PyDefault)
    (cast : PyCast) : Except DecoupleError Value × AutoConfig × Nat :=
  match ac.config with
  | Option.some cfg => (Config.get env cfg option default cast, ac, 0)
  | Option.none =>
    match AutoConfig.load fs ac.searchParents (ac.searchPath.getD callerPath) with
    | .error e => (.error e, ac, 1)
    | .ok cfg =>
      (Config.get env cfg option default cast,
       { ac with config := Option.some cfg }, 1)

/-- Does an outcome carry the missing-key error that a repository
`__getitem__` raises (`KeyError` / the INI parser's missing section or
option error)? -/
def isMissingKeyError : Except DecoupleError Value → Bool
  | .error (.missingKey _) => true
  | _ => false

/-! ## Claims -/

/-- C1: for every option key present in the process environment (even with
an empty-string value), `Config.get` takes the environment's string as the
value, ignoring whatever the backing repository holds for the key: the
result is the cast applied to the environment string, and with no cast it
is exactly the environment's value. -/
theorem c1_env_wins (env : EnvMap) (cfg : Config) (k v : String)
    (default : PyDefault) (cast : PyCast)
    (h : List.lookup k env = Option.some v) :
    Config.get env cfg k default cast = Config.applyCast cast (.str v) ∧
    Config.get env cfg k default .undefined = .ok (.str v) := by
  constructor <;>
    simp [Config.get, Config.resolveValue, h, Except.bind, Config.applyCast]

/-- Witness for C1: `KEY` is set to the empty string in the environment and
to `file-value` in the repository; `get` returns the environment's empty
string. -/
theorem c1_env_wins_witness :
    Config.get [("KEY", "")] ⟨.envFile [("KEY", "file-value")]⟩ "KEY"
      .undefined .undefined = .ok (.str "") :=
  (c1_env_wins [("KEY", "")] ⟨.envFile [("KEY", "file-value")]⟩ "KEY" ""
    .undefined .undefined (by decide)).2

/-- C2: for a key absent from the environment and the repository, `get`
with no default raises `UndefinedValueError` (whatever the cast argument),
and with a default `d` — including falsy values such as `None`, which are
distinct from the undefined sentinel — returns `d` unchanged when no cast
is given, `cast(d)` when a cast is given, and the boolean caster applied to
`d` when the cast is the boolean marker. -/
theorem c2_absent_key (env : EnvMap) (cfg : Config) (k : String) (d : Value)
    (f : Value → Except DecoupleError Value) (cast : PyCast)
    (henv : List.lookup k env = Option.none)
    (hrepo : cfg.repository.contains env k = false) :
    Config.get env cfg k .undefined cast
      = .error (.undefinedValue
          (k ++ " not found. Declare it as envvar or define a default value.")) ∧
    Config.get env cfg k (.value d) .undefined = .ok d ∧
    Config.get env cfg k (.value d) (.fn f) = f d ∧
    Config.get env cfg k (.value d) .boolMarker = castBoolean d := by
  refine ⟨?_, ?_, ?_, ?_⟩ <;>
    simp [Config.get, Config.resolveValue, henv, hrepo, Except.bind,
      Config.applyCast]

/-- Witness for C2: key `MISSING` against an empty environment and the
empty repository, with the falsy default `None`. -/
theorem c2_absent_key_witness :
    Config.get [] ⟨.empty⟩ "MISSING" .undefined .undefined
      = .error (.undefinedValue
          "MISSING not found. Declare it as envvar or define a default value.") ∧
    Config.get [] ⟨.empty⟩ "MISSING" (.value .none) .undefined = .ok .none ∧
    Config.get [] ⟨.empty⟩ "MISSING" (.value .none)
      (.fn (fun v => .ok v)) = .ok .none ∧
    Config.get [] ⟨.empty⟩ "MISSING" (.value .none) .boolMarker
      = castBoolean .none :=
  c2_absent_key [] ⟨.empty⟩ "MISSING" .none (fun v => .ok v) .undefined
    (by decide) (by decide)

/-- C3: `get` with the boolean-type marker as cast uses `_cast_boolean`,
which lowercases the token and looks it up in the fixed `_BOOLEANS` table:
`1`, `yes`, `true`, `on` (any letter case) map to true; `0`, `no`, `false`,
`off` and the empty string map to false; every token outside the table
raises `ValueError('Not a boolean: ...')`; in particular the string `False`
maps to false. -/
theorem c3_boolean_caster :
    (∀ s : String,
      pyLower s = "1" ∨ pyLower s = "yes" ∨ pyLower s = "true" ∨
        pyLower s = "on" →
      castBoolean (.str s) = .ok (.bool true)) ∧
    (∀ s : String,
      pyLower s = "0" ∨ pyLower s = "no" ∨ pyLower s = "false" ∨
        pyLower s = "off" ∨ pyLower s = "" →
      castBoolean (.str s) = .ok (.bool false)) ∧
    (∀ s : String, List.lookup (pyLower s) BOOLEANS = Option.none →
      castBoolean (.str s) = .error (.valueError ("Not a boolean: " ++ s))) ∧
    castBoolean (.str "False") = .ok (.bool false) ∧
    (∀ (env : EnvMap) (cfg : Config) (k v : String) (d : PyDefault),
      List.lookup k env = Option.some v →
      Config.get env cfg k d .boolMarker = castBoolean (.str v)) := by
  refine ⟨?_, ?_, ?_, by decide, ?_⟩
  · rintro s (h | h | h | h) <;>
      (unfold castBoolean; simp only [Value.toPyStr]; rw [h]; rfl)
  · rintro s (h | h | h | h | h) <;>
      (unfold castBoolean; simp only [Value.toPyStr]; rw [h]; rfl)
  · intro s h
    unfold castBoolean
    simp only [Value.toPyStr]
    rw [h]
  · intro env cfg k v d h
    simp [Config.get, Config.resolveValue, h, Except.bind, Config.applyCast]

/-- Witness for C3: concrete tokens through the boolean caster, and a
`get` call with the boolean marker on an environment value. -/
theorem c3_boolean_caster_witness :
    castBoolean (.str "TRUE") = .ok (.bool true) ∧
    castBoolean (.str "off") = .ok (.bool false) ∧
    castBoolean (.str "maybe") = .error (.valueError "Not a boolean: maybe") ∧
    Config.get [("FLAG", "on")] ⟨.empty⟩ "FLAG" .undefined .boolMarker
      = .ok (.bool true) :=
  ⟨c3_boolean_caster.1 "TRUE" (Or.inr (Or.inr (Or.inl (by decide)))),
   c3_boolean_caster.2.1 "off" (Or.inr (Or.inr (Or.inr (Or.inl (by decide))))),
   c3_boolean_caster.2.2.1 "maybe" (by decide),
   (c3_boolean_caster.2.2.2.2 [("FLAG", "on")] ⟨.empty⟩ "FLAG" "on"
      .undefined (by decide)).trans (by decide)⟩

/-- Permuting a list does not change `List.any`: the filesystem membership
tests of discovery see a set, not a listing order. -/
theorem list_any_perm {α : Type} {l l' : List α} (h : l.Perm l') (p : α → Bool) :
    l.any p = l'.any p := by
  induction h with
  | nil => rfl
  | cons x _ ih => simp [List.any_cons, ih]
  | swap x y l => simp [List.any_cons, Bool.or_left_comm]
  | trans _ _ ih1 ih2 => exact ih1.trans ih2

/-- `List.find?` only looks at the predicate's values. -/
theorem list_find?_congr {α : Type} {p q : α → Bool} (h : ∀ a, p a = q a) :
    ∀ l : List α, l.find? p = l.find? q := by
  intro l
  induction l with
  | nil => rfl
  | cons a t ih =>
    rw [List.find?_cons, List.find?_cons, h a]
    cases q a <;> simp [ih]

/-- Filesystems with the same membership answer `isFile` identically. -/
theorem isFile_perm {fs fs' : FileSystem} (h : fs.Perm fs')
    (d : List String) (n : String) : isFile fs d n = isFile fs' d n :=
  list_any_perm h _

/-- `_find_file` depends on the filesystem only through `isFile`. -/
theorem findFile_congr {fs fs' : FileSystem}
    (h : ∀ d n, isFile fs d n = isFile fs' d n) (sp : Bool) :
    ∀ p, AutoConfig.findFile fs sp p = AutoConfig.findFile fs' sp p := by
  intro p
  induction p with
  | nil =>
    simp only [AutoConfig.findFile]
    rw [list_find?_congr (fun e => h [] e.1) SUPPORTED]
  | cons d parent ih =>
    simp only [AutoConfig.findFile]
    rw [list_find?_congr (fun e => h (d :: parent) e.1) SUPPORTED]
    cases SUPPORTED.find? (fun e => isFile fs' (d :: parent) e.1) <;> simp [ih]

/-- C4: auto-discovery returns the first match in the fixed `SUPPORTED`
table order and is insensitive to the filesystem's listing order: the
result is unchanged under permuting the filesystem, a hit of the ordered
table lookup is returned as-is, and a directory holding both
`settings.ini` and `.env` but no `secrets.json` selects `settings.ini`. -/
theorem c4_discovery_precedence (fs fs' : FileSystem) (sp : Bool)
    (p : List String) (hperm : fs.Perm fs') :
    AutoConfig.findFile fs sp p = AutoConfig.findFile fs' sp p ∧
    (∀ e, SUPPORTED.find? (fun x => isFile fs p x.1) = Option.some e →
      AutoConfig.findFile fs sp p = Option.some (p, e.1)) ∧
    (isFile fs p "settings.ini" = true → isFile fs p ".env" = true →
      isFile fs p "secrets.json" = false →
      AutoConfig.findFile fs sp p = Option.some (p, "settings.ini")) := by
  refine ⟨findFile_congr (fun d n => isFile_perm hperm d n) sp p, ?_, ?_⟩
  · intro e he
    cases p <;> simp [AutoConfig.findFile, he]
  · intro h1 h2 h3
    have hf : SUPPORTED.find? (fun x => isFile fs p x.1)
        = Option.some ("settings.ini", RepoClass.ini) := by
      simp [SUPPORTED, List.find?_cons, h1, h3]
    cases p <;> simp [AutoConfig.findFile, hf]

/-- Witness for C4: a directory `proj` holding `settings.ini` and `.env`,
listed in both orders; discovery picks `settings.ini` either way. -/
theorem c4_discovery_precedence_witness :
    AutoConfig.findFile
      [⟨["proj"], "settings.ini", .iniData []⟩, ⟨["proj"], ".env", .text []⟩]
      true ["proj"]
      = AutoConfig.findFile
        [⟨["proj"], ".env", .text []⟩, ⟨["proj"], "settings.ini", .iniData []⟩]
        true ["proj"] ∧
    AutoConfig.findFile
      [⟨["proj"], "settings.ini", .iniData []⟩, ⟨["proj"], ".env", .text []⟩]
      true ["proj"]
      = Option.some (["proj"], "settings.ini") :=
  ⟨(c4_discovery_precedence
      [⟨["proj"], "settings.ini", .iniData []⟩, ⟨["proj"], ".env", .text []⟩]
      [⟨["proj"], ".env", .text []⟩, ⟨["proj"], "settings.ini", .iniData []⟩]
      true ["proj"] (by decide)).1,
   (c4_discovery_precedence
      [⟨["proj"], "settings.ini", .iniData []⟩, ⟨["proj"], ".env", .text []⟩]
      [⟨["proj"], ".env", .text []⟩, ⟨["proj"], "settings.ini", .iniData []⟩]
      true ["proj"] (by decide)).2.2 (by decide) (by decide) (by decide)⟩

/-- C5: with `/a/b/c` represented bottom-up as `["c", "b", "a"]` and `.env`
existing only at `/a` with no other candidate on the path, discovery with
parent search enabled walks upward and finds `/a/.env`; with parent search
disabled it searches only `/a/b/c`, finds nothing, and `_load` falls back
to the empty repository. -/
theorem c5_parent_traversal (fs : FileSystem)
    (h1 : ∀ n, isFile fs ["c", "b", "a"] n = false)
    (h2 : ∀ n, isFile fs ["b", "a"] n = false)
    (h3 : isFile fs ["a"] "secrets.json" = false)
    (h4 : isFile fs ["a"] "settings.ini" = false)
    (h5 : isFile fs ["a"] ".env" = true) :
    AutoConfig.findFile fs true ["c", "b", "a"] = Option.some (["a"], ".env") ∧
    AutoConfig.findFile fs false ["c", "b", "a"] = Option.none ∧
    AutoConfig.load fs false ["c", "b", "a"] = .ok ⟨.empty⟩ := by
  have hfind : AutoConfig.findFile fs false ["c", "b", "a"] = Option.none := by
    simp [AutoConfig.findFile, SUPPORTED, List.find?_cons, h1]
  refine ⟨?_, hfind, ?_⟩
  · simp [AutoConfig.findFile, SUPPORTED, List.find?_cons, h1, h2, h3, h4, h5]
  · simp [AutoConfig.load, hfind, buildRepository, Except.map]

/-- Witness for C5: the filesystem holding exactly `/a/.env`. -/
theorem c5_parent_traversal_witness :
    AutoConfig.findFile [⟨["a"], ".env", .text []⟩] true ["c", "b", "a"]
      = Option.some (["a"], ".env") ∧
    AutoConfig.findFile [⟨["a"], ".env", .text []⟩] false ["c", "b", "a"]
      = Option.none ∧
    AutoConfig.load [⟨["a"], ".env", .text []⟩] false ["c", "b", "a"]
      = .ok ⟨.empty⟩ :=
  c5_parent_traversal [⟨["a"], ".env", .text []⟩]
    (fun _ => rfl) (fun _ => rfl) rfl rfl rfl

/-- C6: once a call to the engine has a memoized configuration (the first
successful call sets it), every further call with the same search state
performs zero filesystem walks, leaves the engine unchanged, and returns
the same resolved value as the call that populated the memo. -/
theorem c6_memoized_call (fs : FileSystem) (env : EnvMap) (ac : AutoConfig)
    (p : List String) (option : String) (default : PyDefault) (cast : PyCast)
    (v : Except DecoupleError Value) (ac' : AutoConfig) (n : Nat)
    (hcall : AutoConfig.call fs env ac p option default cast = (v, ac', n))
    (hmem : ac'.config.isSome = true) :
    AutoConfig.call fs env ac' p option default cast = (v, ac', 0) := by
  cases hc : ac.config with
  | some cfg =>
    simp only [AutoConfig.call, hc, Prod.mk.injEq] at hcall
    obtain ⟨hv, hac, -⟩ := hcall
    subst hv hac
    simp only [AutoConfig.call, hc]
  | none =>
    simp only [AutoConfig.call, hc] at hcall
    cases hload : AutoConfig.load fs ac.searchParents (ac.searchPath.getD p) with
    | error e =>
      rw [hload] at hcall
      simp only [Prod.mk.injEq] at hcall
      obtain ⟨-, hac, -⟩ := hcall
      subst hac
      rw [hc] at hmem
      simp at hmem
    | ok cfg =>
      rw [hload] at hcall
      simp only [Prod.mk.injEq] at hcall
      obtain ⟨hv, hac, -⟩ := hcall
      subst hv hac
      simp only [AutoConfig.call]

/-- Witness for C6: the engine that has just loaded `/a/.env` answers the
repeated call from its memo, with zero filesystem walks. -/
theorem c6_memoized_call_witness :
    AutoConfig.call [⟨["a"], ".env", .text ["K=1"]⟩] []
      { searchPath := Option.some ["a"],
        config := Option.some ⟨.envFile [("K", "1")]⟩ }
      ["caller"] "K" .undefined .undefined
      = (.ok (.str "1"),
         { searchPath := Option.some ["a"],
           config := Option.some ⟨.envFile [("K", "1")]⟩ }, 0) :=
  c6_memoized_call [⟨["a"], ".env", .text ["K=1"]⟩] []
    { searchPath := Option.some ["a"], config := Option.none }
    ["caller"] "K" .undefined .undefined
    (.ok (.str "1"))
    { searchPath := Option.some ["a"],
      config := Option.some ⟨.envFile [("K", "1")]⟩ }
    1 (by decide) rfl

/-- C7: the list caster with default settings applied to
`a, b, "c,d", ` produces exactly `["a", "b", "c,d", ""]`: four tokens, the
quoted token keeping its embedded comma with the quotes removed, and a
final empty token from the trailing delimiter-and-space. -/
theorem c7_csv_example :
    Csv.call csvDefault "a, b, \"c,d\", " = .ok ["a", "b", "c,d", ""] := by
  decide

/-- C8 counterexample: with default settings the input `,a,` — leading and
trailing delimiter characters around a single token — yields just `["a"]`:
posix-mode shlex treats delimiter characters like shell whitespace, so bare
leading or trailing delimiters are skipped and produce no empty tokens,
contradicting the claim that they produce empty tokens passed through
strip and cast. -/
theorem c8_counterexample :
    Csv.call csvDefault ",a," = .ok ["a"] ∧
    Csv.call csvDefault ",a," ≠ .ok ["", "a", ""] := by
  decide

/-- C8 (amended): the list caster with the default comma delimiter and
whitespace strip, for every per-token cast and container constructor,
handles: empty input, producing an empty container; a single unquoted
token; a quoted token containing the delimiter literally, kept as one
token with the quotes removed; and leading or trailing delimiter
characters, which are skipped as token separators and produce no empty
tokens. -/
theorem c8_amended {α β : Type} (cast : String → α) (post : List α → β) :
    Csv.call { cast := cast, postProcess := post } "" = .ok (post []) ∧
    Csv.call { cast := cast, postProcess := post } "hello"
      = .ok (post [cast "hello"]) ∧
    Csv.call { cast := cast, postProcess := post } "\"c,d\""
      = .ok (post [cast "c,d"]) ∧
    Csv.call { cast := cast, postProcess := post } ",a,"
      = .ok (post [cast "a"]) :=
  ⟨rfl, rfl, rfl, rfl⟩

/-- C9 counterexample: the line
`FOO = "bar baz"  # not a comment marker mid-line` does not map `FOO` to
`bar baz`: the value is stripped of whitespace and then of leading and
trailing quote characters only, and since it ends in `e`, the closing
quote and the trailing text stay in the value. -/
theorem c9_counterexample :
    parseEnvLine "FOO = \"bar baz\"  # not a comment marker mid-line"
      ≠ Option.some ("FOO", "bar baz") := by
  decide

/-- C9 (amended): env-file parsing does not treat the mid-line `#` as a
comment — only full lines beginning with `#` are skipped — and the line
yields `FOO` mapped to `bar baz"  # not a comment marker mid-line`: the
surrounding whitespace and the leading quote are stripped, but because the
value does not end with a quote character the closing quote and the
trailing text remain part of the value. -/
theorem c9_amended :
    RepositoryEnv.parse
      ["# a full-line comment is skipped",
       "FOO = \"bar baz\"  # not a comment marker mid-line"]
      = [("FOO", "bar baz\"  # not a comment marker mid-line")] := by
  decide

/-- C10: for the Ini and Env-file repository variants, under the only
condition in which `Config.get` consults the repository — the key absent
from the environment — `contains` reduces to membership in the
file-derived mapping, and the value-selection step of the resolver can
never surface the missing-key error of the repository's `__getitem__`:
that error branch is unreachable during a resolver call. -/
theorem c10_repo_get_unreachable (env : EnvMap)
    (data : List (String × String))
    (sections : List (String × List (String × String))) (k : String)
    (default : PyDefault)
    (henv : List.lookup k env = Option.none) :
    Repo.contains env (.envFile data) k = (List.lookup k data).isSome ∧
    Repo.contains env (.ini sections) k = iniHasOption sections SECTION k ∧
    isMissingKeyError (Config.resolveValue env ⟨.envFile data⟩ k default)
      = false ∧
    isMissingKeyError (Config.resolveValue env ⟨.ini sections⟩ k default)
      = false := by
  refine ⟨?_, ?_, ?_, ?_⟩
  · simp [Repo.contains, envContains, henv]
  · simp [Repo.contains, envContains, henv]
  · cases hx : List.lookup k data with
    | some v =>
      simp [Config.resolveValue, henv, Repo.contains, envContains,
        Repo.getItem, hx, isMissingKeyError]
    | none =>
      cases default <;>
        simp [Config.resolveValue, henv, Repo.contains, envContains,
          Repo.getItem, hx, isMissingKeyError]
  · cases hs : List.lookup SECTION sections with
    | some opts =>
      cases ho : List.lookup k opts with
      | some v =>
        simp [Config.resolveValue, henv, Repo.contains, envContains,
          iniHasOption, Repo.getItem, iniGet, hs, ho, isMissingKeyError]
      | none =>
        cases default <;>
          simp [Config.resolveValue, henv, Repo.contains, envContains,
            iniHasOption, Repo.getItem, iniGet, hs, ho, isMissingKeyError]
    | none =>
      cases default <;>
        simp [Config.resolveValue, henv, Repo.contains, envContains,
          iniHasOption, Repo.getItem, iniGet, hs, isMissingKeyError]

/-- Witness for C10: an empty environment, an env-file mapping holding `A`,
and an INI section holding `B`, probed at key `A`. -/
theorem c10_repo_get_unreachable_witness :
    Repo.contains [] (.envFile [("A", "1")]) "A"
      = (List.lookup "A" [("A", "1")]).isSome ∧
    Repo.contains [] (.ini [("settings", [("B", "2")])]) "A"
      = iniHasOption [("settings", [("B", "2")])] SECTION "A" ∧
    isMissingKeyError
      (Config.resolveValue [] ⟨.envFile [("A", "1")]⟩ "A" .undefined)
      = false ∧
    isMissingKeyError
      (Config.resolveValue [] ⟨.ini [("settings", [("B", "2")])]⟩ "A"
        .undefined)
      = false :=
  c10_repo_get_unreachable [] [("A", "1")] [("settings", [("B", "2")])]
    "A" .undefined rfl

end Decouple
